import Mathlib

/-!
# Verification of the sqld / libsqlx-server core

A shallow embedding of the parts of the `gris/sqld` repository that the
specification's claims are about, with theorems settling each claim:

* the replication HTTP endpoint (`src/sqld/src/replication/http.rs`:
  `handle_frames`, `load_snapshot`);
* the per-allocation actor (`src/libsqlx-server/src/allocation/mod.rs`:
  `Allocation::next_conn_id`, `Allocation::new_conn`, `Allocation::run`);
* the Hrana pipeline handler (`src/libsqlx-server/src/hrana/http/mod.rs`:
  `handle_pipeline`);
* the WebSocket handshake (`src/sqld/src/hrana/ws/handshake.rs`:
  `negotiate_version`);
* Hrana statement helpers (`src/libsqlx-server/src/hrana/stmt.rs`:
  `proto_sql_to_sql`, `proto_value_to_value`, `proto_value_from_value`);
* the WebSocket connection loop (`src/sqld/src/hrana/ws/conn.rs`:
  `handle_hello_msg`, `handle_request_msg`).

Machine integers are embedded as `Nat`/`Int` with explicit `% 2^32` where
the source relies on wrapping (`u32::wrapping_add`).  Fallible code returns
`Option`/`Except`.
-/

namespace Sqld

/-! ## Replication HTTP endpoint (`src/sqld/src/replication/http.rs`) -/

/-- One WAL frame (`replication::frame::Frame`): page number, frame number,
payload bytes.  `handle_frames` treats frames opaquely, so the payload is a
plain byte list. -/
structure Frame where
  pageNo : Nat
  frameNo : Nat
  payload : List Nat
  deriving Repr, DecidableEq

/-- Outcome of one `FrameStream::next()` call when `current_frame_no = cur`:
either the next frame (frame number `cur + 1`), `SnapshotRequired`, another
`LogReadError`, or end of stream (`None`). -/
inductive ReadOutcome where
  | frame (f : Frame)
  | snapshotRequired
  | otherError
  | eos
  deriving Repr, DecidableEq

/-- Modelled from the spec: the `ReplicationLogger` together with the
`FrameStream` and snapshot-file machinery it backs, none of which is under
`src/`.  `maxAvailableFrameNo` is the field `FrameStream::max_available_frame_no`
captured at stream creation; `readFrame cur` is the outcome of
`FrameStream::next()` when `current_frame_no = cur` (per the spec,
`stream_from(N)` yields frames `N, N+1, …` up to the tail and fails with
`SnapshotRequired` below the compaction horizon); `getSnapshotFile from`
models `logger.get_snapshot_file(from)`: `none` is `Err(_)`, `some none` is
`Ok(None)`, `some (some snap)` is `Ok(Some(snap))` where `snap from` lists
the byte chunks of `snapshot.frames_iter_from(from)` (`none` entries are
read errors); `tryFromBytes` models `Frame::try_from_bytes`, kept abstract
since the binary frame layout is not under `src/`. -/
structure ReplicationLoggerModel where
  maxAvailableFrameNo : Nat
  readFrame : Nat → ReadOutcome
  getSnapshotFile : Nat → Option (Option (Nat → List (Option (List Nat))))
  tryFromBytes : List Nat → Option Frame

/-- Push decoded frames one by one, as the `for bytes in
snapshot.frames_iter_from(from)` loop of `load_snapshot` does; any byte-read
or decode error aborts with an error (`?` propagation). -/
def pushSnapshotFrames (lg : ReplicationLoggerModel) :
    List (Option (List Nat)) → List Frame → Option (List Frame)
  | [], acc => some acc
  | b :: rest, acc =>
    match b with
    | none => none
    | some bytes =>
      match lg.tryFromBytes bytes with
      | none => none
      | some f => pushSnapshotFrames lg rest (acc ++ [f])

/-- `load_snapshot(logger, from)`: read the whole snapshot file from offset
`from` and decode every chunk; when no snapshot file is available (or
`get_snapshot_file` errors) return the empty frame list.  `none` models the
`anyhow` error propagated to the caller. -/
def load_snapshot (lg : ReplicationLoggerModel) (from_ : Nat) : Option (List Frame) :=
  match lg.getSnapshotFile from_ with
  | some (some snap) => pushSnapshotFrames lg (snap from_) []
  | _ => some []

/-- The response of `handle_frames`, abstracting the HTTP layer:
`ok frames` is `200 OK` with body `{frames}`, `noContent` is `204`,
`serverError` is the `500`-class outcome (a `LogReadError` other than
`SnapshotRequired`, or an error while loading the snapshot). -/
inductive FramesResponse where
  | ok (frames : List Frame)
  | noContent
  | serverError
  deriving Repr, DecidableEq

/-- The `for _ in 0..MAX_FRAMES_IN_SINGLE_RESPONSE` loop of `handle_frames`:
`fuel` counts remaining iterations, `cur` is `frame_stream.current_frame_no`,
`acc` the frames collected so far.  A successful read appends the frame and
advances `cur`; the loop then breaks when `max_available_frame_no ≤
current_frame_no`.  `SnapshotRequired` with no frames collected switches to
the snapshot; with frames collected it returns them.  Any other read error
is a server error; `None` ends the stream.  `none` models the `500`-class
outcomes. -/
def framesLoop (lg : ReplicationLoggerModel) (nextOffset : Nat) :
    Nat → Nat → List Frame → Option (List Frame)
  | 0, _, acc => some acc
  | fuel + 1, cur, acc =>
    match lg.readFrame cur with
    | .frame f =>
      let acc' := acc ++ [f]
      let cur' := cur + 1
      if lg.maxAvailableFrameNo ≤ cur' then some acc'
      else framesLoop lg nextOffset fuel cur' acc'
    | .snapshotRequired =>
      if acc = [] then load_snapshot lg nextOffset else some acc
    | .otherError => none
    | .eos => some acc

/-- `MAX_FRAMES_IN_SINGLE_RESPONSE` in `handle_frames`. -/
def MAX_FRAMES_IN_SINGLE_RESPONSE : Nat := 256

/-- `handle_frames` after authentication and JSON parsing succeeded (both
failure paths answer `401`/`400`, never `200`): clamp `next_offset` to at
least 1, take `current_frameno = next_offset - 1`, answer `204` when no
frame at `next_offset` is available, otherwise run the read loop and answer
`204` for an empty result, `200` with the frames otherwise. -/
def handle_frames (lg : ReplicationLoggerModel) (nextOffset : Nat) : FramesResponse :=
  let nextOffset' := max nextOffset 1
  let currentFrameno := nextOffset' - 1
  if lg.maxAvailableFrameNo < nextOffset' then .noContent
  else
    match framesLoop lg nextOffset' MAX_FRAMES_IN_SINGLE_RESPONSE currentFrameno [] with
    | none => .serverError
    | some frames => if frames = [] then .noContent else .ok frames

/-! ## Per-allocation actor (`src/libsqlx-server/src/allocation/mod.rs`) -/

/-- `2^32`, the modulus of `u32` arithmetic (`next_conn_id` is a `u32` and
is advanced with `wrapping_add`). -/
def u32Size : Nat := 2 ^ 32

/-- The state of an `Allocation` that `new_conn` / `next_conn_id` touch:
the `next_conn_id : u32` counter and the ids of the spawned connection
workers that have not completed (`connections_futs : JoinSet<u32>` holds one
future per live worker, each eventually returning its id), plus the
`max_concurrent_connections` field. -/
structure AllocationState where
  next_conn_id : Nat
  liveConnIds : List Nat
  max_concurrent_connections : Nat
  deriving Repr, DecidableEq

namespace Allocation

/-- `Allocation::next_conn_id`: wrapping-increment the counter and return
it.  The source's loop returns unconditionally on its first iteration — the
check that the id is not already in use is commented out — so no id is ever
skipped. -/
def next_conn_id (s : AllocationState) : Nat × AllocationState :=
  let id := (s.next_conn_id + 1) % u32Size
  (id, { s with next_conn_id := id })

/-- `Allocation::new_conn`: acquire the next connection id, open a SQL
connection, spawn a `Connection` worker with that id into
`connections_futs`, and hand back the worker's handle (abstracted here to
the worker's id). -/
def new_conn (s : AllocationState) : Nat × AllocationState :=
  let (id, s') := next_conn_id s
  (id, { s' with liveConnIds := s'.liveConnIds ++ [id] })

/-- The `AllocationMessage::NewConnection` arm of `Allocation::run`: the
actor calls `new_conn` unconditionally and replies with the resulting
handle.  No path in `run` or `new_conn` consults
`max_concurrent_connections` or rejects the request. -/
def handleNewConnection (s : AllocationState) : Nat × AllocationState :=
  new_conn s

end Allocation

/-! ## Hrana pipeline handler (`src/libsqlx-server/src/hrana/http/mod.rs`) -/

/-- `hrana::http::proto::PipelineRequestBody`, generic over the request
type (the per-request handler `request::handle` lives in `request.rs`, not
under `src/`, so requests are opaque here). -/
structure PipelineRequestBody (R : Type) where
  baton : Option String
  requests : List R

/-- `hrana::http::proto::PipelineResponseBody`, generic over the
per-request result type. -/
structure PipelineResponseBody (Res : Type) where
  baton : Option String
  base_url : Option String
  results : List Res

/-- The error type of `handle_pipeline` (`HranaError`), abstracted: the
only structure the pipeline handler itself depends on is that stream
acquisition may fail with one. -/
inductive HranaError where
  | streamError
  | protocolError
  deriving Repr, DecidableEq

/-- The `for request in req.requests` loop of `handle_pipeline`: run the
per-request handler on each request in input order, threading the stream
guard, and collect the results. -/
def runRequests {R Res S : Type} (handle : S → R → Res × S) :
    S → List R → List Res × S
  | g, [] => ([], g)
  | g, r :: rs =>
    let (res, g') := handle g r
    let (out, g'') := runRequests handle g' rs
    (res :: out, g'')

/-- `handle_pipeline`: acquire the stream from the registry (this may fail
with a baton/stream error, aborting the whole pipeline), run every request
in input order collecting one result each, then release the stream —
minting the new baton — and answer with `{baton, base_url, results}`.

`acquire` models `stream::acquire` and `release` models
`StreamGuard::release` (both in `stream.rs`, not under `src/`); `handle`
models `request::handle` (`request.rs`, not under `src/`).  Modelled from
the spec: `request::handle` records request-level errors in the returned
result — "On any request-level error, record the error in place and
continue with remaining requests" — so it is a total function into the
result type rather than a fallible one. -/
def handle_pipeline {R Res S : Type}
    (acquire : Option String → Except HranaError S)
    (handle : S → R → Res × S)
    (release : S → Option String)
    (self_url : Option String)
    (req : PipelineRequestBody R) :
    Except HranaError (PipelineResponseBody Res) :=
  match acquire req.baton with
  | .error e => .error e
  | .ok guard =>
    let p := runRequests handle guard req.requests
    .ok ⟨release p.2, self_url, p.1⟩

/-! ## Protocol versions (`Version` in the hrana modules) -/

/-- The Hrana protocol version.  Declaration order mirrors the source enum,
so the derived order is `hrana1 < hrana2 < hrana3`. -/
inductive Version where
  | hrana1
  | hrana2
  | hrana3
  deriving Repr, DecidableEq

/-- Index of a version in declaration order, giving the source's derived
`PartialOrd`. -/
def Version.toIdx : Version → Nat
  | .hrana1 => 0
  | .hrana2 => 1
  | .hrana3 => 2

/-- The strict order on versions (`<` from the derived `PartialOrd`), as a
boolean. -/
def Version.blt (a b : Version) : Bool := a.toIdx.blt b.toIdx

/-! ## WebSocket handshake (`src/sqld/src/hrana/ws/handshake.rs`) -/

/-- ASCII lowercasing of one character, as `u8::to_ascii_lowercase` does
inside `str::eq_ignore_ascii_case`. -/
def asciiLowercase (c : Char) : Char :=
  if c.toNat ≥ 65 ∧ c.toNat ≤ 90 then Char.ofNat (c.toNat + 32) else c

/-- `str::eq_ignore_ascii_case` on character lists: equality after ASCII
lowercasing. -/
def eqIgnoreAsciiCase (a b : List Char) : Bool :=
  a.map asciiLowercase == b.map asciiLowercase

/-- Whitespace as `char::is_whitespace` recognizes it, restricted to the
ASCII range relevant to HTTP header values. -/
def isWsChar (c : Char) : Bool :=
  c == ' ' || c == '\t' || c == '\n' || c == '\r'

/-- Rust's `str::split(',')` on the character list: split into the (always
non-empty) list of comma-separated segments, keeping empty segments. -/
def splitOnComma : List Char → List (List Char)
  | [] => [[]]
  | c :: rest =>
    match splitOnComma rest with
    | [] => [[c]]
    | cur :: more => if c = ',' then [] :: cur :: more else (c :: cur) :: more

/-- Rust's `str::trim` on the character list: drop leading and trailing
whitespace. -/
def trimChars (l : List Char) : List Char :=
  ((l.dropWhile isWsChar).reverse.dropWhile isWsChar).reverse

/-- The error result of `negotiate_version`.  The source returns the string
"Only hrana1 and hrana2 subprotocols are supported" (with the protocol
names quoted); only its identity matters here. -/
inductive NegotiateError where
  | unsupportedSubprotocols
  deriving Repr, DecidableEq

/-- `negotiate_version`, over the `sec-websocket-protocol` request header
(`none` when the header is absent; a non-UTF-8 header value reaches the
function as the empty string via `unwrap_or`).  The header is split on
commas, each part trimmed, and each part compared case-insensitively
against "hrana1" and "hrana2" — these are the only two subprotocols the
function knows.  `hrana2` wins when both are offered; with neither offered
the handshake fails. -/
def negotiate_version (protocolHdr : Option String) : Except NegotiateError Version :=
  match protocolHdr with
  | some hdr =>
    let supportedByClient := (splitOnComma hdr.data).map trimChars
    let hrana1Supported := supportedByClient.any fun p => eqIgnoreAsciiCase p "hrana1".data
    let hrana2Supported := supportedByClient.any fun p => eqIgnoreAsciiCase p "hrana2".data
    if hrana2Supported then .ok .hrana2
    else if hrana1Supported then .ok .hrana1
    else .error .unsupportedSubprotocols
  | none => .ok .hrana1

/-- Whether a header value offers a given subprotocol, under the exact
split/trim/case-insensitive comparison `negotiate_version` performs. -/
def offersProtocol (hdr p : String) : Bool :=
  ((splitOnComma hdr.data).map trimChars).any fun q => eqIgnoreAsciiCase q p.data

/-! ## Hrana statement helpers (`src/libsqlx-server/src/hrana/stmt.rs`) -/

/-- `hrana::proto::Value`, the protocol-level value.  The `float` payload
is the 64-bit pattern of the `f64` (the conversions move the payload
untouched, so its interpretation is irrelevant); `blob` is the byte
vector. -/
inductive proto.Value where
  | null
  | integer (value : Int)
  | float (value : Nat)
  | text (value : String)
  | blob (value : List Nat)
  deriving Repr, DecidableEq

/-- `libsqlx::query::Value`, the engine-level value, with payloads embedded
as in `proto.Value`. -/
inductive Value where
  | Null
  | Integer (i : Int)
  | Real (r : Nat)
  | Text (s : String)
  | Blob (b : List Nat)
  deriving Repr, DecidableEq

/-- `proto_value_to_value`: decode a protocol value into an engine value. -/
def proto_value_to_value : proto.Value → Value
  | .null => .Null
  | .integer value => .Integer value
  | .float value => .Real value
  | .text value => .Text value
  | .blob value => .Blob value

/-- `proto_value_from_value`: encode an engine value as a protocol value. -/
def proto_value_from_value : Value → proto.Value
  | .Null => .null
  | .Integer value => .integer value
  | .Real value => .float value
  | .Text value => .text value
  | .Blob value => .blob value

/-- The variants of `hrana::ProtocolError` that `proto_sql_to_sql`
produces. -/
inductive ProtocolError where
  | notSupported (what : String) (minVersion : Version)
  | sqlNotFound (sqlId : Int)
  | sqlIdAndSqlGiven
  | sqlIdOrSqlNotGiven
  deriving Repr, DecidableEq

/-- `proto_sql_to_sql`: resolve the SQL text of a statement from its `sql`
field or its `sql_id` reference into the stream's SQL cache (`sqls`, a
`HashMap<i32, String>` embedded as an association list looked up with
`List.lookup`).  A present `sql_id` below Hrana 2 is rejected first;
otherwise exactly one of `sql` and `sql_id` must be given, and a `sql_id`
must be present in the cache. -/
def proto_sql_to_sql (protoSql : Option String) (protoSqlId : Option Int)
    (sqls : List (Int × String)) (verion : Version) : Except ProtocolError String :=
  if protoSqlId.isSome && Version.blt verion .hrana2 then
    .error (.notSupported "sql_id" .hrana2)
  else
    match protoSql, protoSqlId with
    | some sql, none => .ok sql
    | none, some sqlId =>
      match sqls.lookup sqlId with
      | some sql => .ok sql
      | none => .error (.sqlNotFound sqlId)
    | some _, some _ => .error .sqlIdAndSqlGiven
    | none, none => .error .sqlIdOrSqlNotGiven

/-! ## WebSocket connection loop (`src/sqld/src/hrana/ws/conn.rs`) -/

namespace ws

/-- The variants of sqld's WebSocket-side `ProtocolError` that the
connection loop raises itself. -/
inductive ProtocolError where
  | deserialize
  | binaryWebSocketMessage
  | requestBeforeHello
  deriving Repr, DecidableEq

/-- `proto::ServerMsg`, generic over the error payload type (the
`session::ResponseError` type lives in `session.rs`, not under `src/`). -/
inductive ServerMsg (E : Type) where
  | helloOk
  | helloError (error : E)
  | responseOk (requestId : Int)
  | responseError (requestId : Int) (error : E)
  deriving Repr, DecidableEq

/-- The fields of `Conn` the hello/request handlers read or write.
`session` is `None` until a `Hello` succeeds; `pendingResponses` models the
`responses : FuturesUnordered<ResponseFuture>` set by the request ids it
holds. -/
structure Conn (Session : Type) where
  conn_id : Nat
  version : Version
  ws_closed : Bool
  session : Option Session
  pendingResponses : List Int
  deriving Repr, DecidableEq

/-- The `Conn` value `handle_ws` constructs before entering its receive
loop: no session, socket open, nothing pending. -/
def mkConn (Session : Type) (conn_id : Nat) (version : Version) : Conn Session :=
  { conn_id := conn_id
    version := version
    ws_closed := false
    session := none
    pendingResponses := [] }

/-- `handle_hello_msg`: with no session yet, run
`session::handle_initial_hello` (in `session.rs`, not under `src/`, passed
here as the parameter `initialHello`) and store the session it returns;
with a session, run `session::handle_repeated_hello` (parameter
`repeatedHello`).  Success answers `HelloOk` and keeps the connection
going; a downcastable error answers `HelloError` and stops it. -/
def handle_hello_msg {Session E : Type}
    (initialHello : Version → Option String → Except E Session)
    (repeatedHello : Session → Option String → Except E Unit)
    (conn : Conn Session) (jwt : Option String) :
    Conn Session × ServerMsg E × Bool :=
  match conn.session with
  | none =>
    match initialHello conn.version jwt with
    | .ok s => ({ conn with session := some s }, .helloOk, true)
    | .error e => (conn, .helloError e, false)
  | some s =>
    match repeatedHello s jwt with
    | .ok _ => (conn, .helloOk, true)
    | .error e => (conn, .helloError e, false)

/-- `handle_request_msg`: without a session, fail immediately with
`ProtocolError::RequestBeforeHello` (the `let Some(session) = conn.session
else bail!` guard); with a session, submit the request via
`session::handle_request` and push a `ResponseFuture` carrying the request
id onto the pending set. -/
def handle_request_msg {Session R : Type} (conn : Conn Session)
    (request_id : Int) (_request : R) :
    Except ProtocolError (Conn Session × Bool) :=
  match conn.session with
  | none => .error .requestBeforeHello
  | some _ =>
    .ok ({ conn with pendingResponses := conn.pendingResponses ++ [request_id] }, true)

end ws

/-! ## Theorems -/

/-- C6: Encoding a protocol `Value` to an engine `Value` and decoding it
back is the identity for all five variants (null, integer, float, text,
blob), in particular for blobs containing 0xFF bytes and integers at
±(2^63 − 1). -/
theorem proto_value_roundtrip :
    (∀ v : proto.Value, proto_value_from_value (proto_value_to_value v) = v) ∧
    proto_value_from_value (proto_value_to_value (.blob [255])) = .blob [255] ∧
    proto_value_from_value (proto_value_to_value (.integer (2 ^ 63 - 1))) =
      .integer (2 ^ 63 - 1) ∧
    proto_value_from_value (proto_value_to_value (.integer (-(2 ^ 63 - 1)))) =
      .integer (-(2 ^ 63 - 1)) := by
  refine ⟨fun v => ?_, rfl, rfl, rfl⟩
  cases v <;> rfl

/-- C9: `handle_frames` clamps `next_offset` to at least 1 before computing
`current_frameno = next_offset - 1`, so a request with `next_offset = 0` is
handled exactly like `next_offset = 1` (and the subtraction cannot
underflow, the clamped value being positive). -/
theorem handle_frames_offset_zero_eq_one :
    ∀ lg : ReplicationLoggerModel, handle_frames lg 0 = handle_frames lg 1 :=
  fun _ => rfl

/-- C2: the connection-id allocator does not skip ids that are in use: on
an allocation state with a live worker of id 1 and counter 0 (as reached
after a first connection and 2^32 − 1 further ones wrapping the `u32`
counter), `new_conn` hands out id 1 again, leaving two live workers with
the same id.  Also the counter wraps to 0 at 2^32 − 1. -/
theorem new_conn_duplicates_live_id :
    (Allocation.new_conn ⟨0, [1], 16⟩).1 = 1 ∧
    (Allocation.new_conn ⟨0, [1], 16⟩).2.liveConnIds = [1, 1] ∧
    ¬ (Allocation.new_conn ⟨0, [1], 16⟩).2.liveConnIds.Nodup ∧
    (Allocation.next_conn_id ⟨u32Size - 1, [], 16⟩).1 = 0 := by
  refine ⟨?_, ?_, ?_, ?_⟩ <;> decide

/-- C3 (divergence witness): handling a `NewConnection` message always
spawns a new connection worker and replies with its handle, even when the
number of live workers already reaches `max_concurrent_connections`; no
path rejects the request. -/
theorem new_connection_ignores_limit :
    ∀ s : AllocationState,
      s.max_concurrent_connections ≤ s.liveConnIds.length →
      (Allocation.handleNewConnection s).2.liveConnIds.length =
        s.liveConnIds.length + 1 := by
  intro s _
  simp [Allocation.handleNewConnection, Allocation.new_conn, Allocation.next_conn_id]

/-- Witness for `new_connection_ignores_limit`: an allocation at its
connection limit (0 allowed, 0 live) still spawns a worker. -/
theorem new_connection_ignores_limit_witness :
    (⟨5, [], 0⟩ : AllocationState).max_concurrent_connections ≤
      (⟨5, [], 0⟩ : AllocationState).liveConnIds.length ∧
    (Allocation.handleNewConnection ⟨5, [], 0⟩).2.liveConnIds.length =
      (⟨5, [], 0⟩ : AllocationState).liveConnIds.length + 1 :=
  ⟨by decide, new_connection_ignores_limit ⟨5, [], 0⟩ (by decide)⟩

/-- C8: a `Request` message received before a successful `Hello` is
answered with a protocol error: the connection starts with no session,
`handle_request_msg` fails with `RequestBeforeHello` whenever no session
exists, and a session is established exactly by a `Hello` whose
`handle_initial_hello` succeeds. -/
theorem request_before_hello :
    (∀ (Session : Type) (cid : Nat) (v : Version),
      (ws.mkConn Session cid v).session = none) ∧
    (∀ (Session R : Type) (conn : ws.Conn Session) (rid : Int) (req : R),
      conn.session = none →
      ws.handle_request_msg conn rid req = .error .requestBeforeHello) ∧
    (∀ (Session E : Type) (ih : Version → Option String → Except E Session)
      (rh : Session → Option String → Except E Unit)
      (conn : ws.Conn Session) (jwt : Option String),
      conn.session = none →
      ((ws.handle_hello_msg ih rh conn jwt).1.session = none ∧
        ∃ e, ih conn.version jwt = .error e) ∨
      (∃ s, ih conn.version jwt = .ok s ∧
        (ws.handle_hello_msg ih rh conn jwt).1.session = some s)) := by
  refine ⟨fun _ _ _ => rfl, ?_, ?_⟩
  · intro Session R conn rid req h
    unfold ws.handle_request_msg
    rw [h]
  · intro Session E ih rh conn jwt h
    cases hih : ih conn.version jwt with
    | ok s => exact Or.inr ⟨s, rfl, by simp [ws.handle_hello_msg, h, hih]⟩
    | error e => exact Or.inl ⟨by simp [ws.handle_hello_msg, h, hih], e, rfl⟩

/-- Witness for `request_before_hello`: on a freshly created connection a
request is rejected with `RequestBeforeHello`. -/
theorem request_before_hello_witness :
    ws.handle_request_msg (ws.mkConn Unit 0 .hrana1) 1 () =
      .error .requestBeforeHello :=
  request_before_hello.2.1 Unit Unit (ws.mkConn Unit 0 .hrana1) 1 () rfl

/-- C5 (counterexample): a `Sec-WebSocket-Protocol` header offering
`hrana3` is rejected by `negotiate_version` — the handshake knows only
`hrana1` and `hrana2` — so the negotiated version is not `Hrana3` as the
claim states. -/
theorem negotiate_version_rejects_hrana3 :
    negotiate_version (some "hrana3") = .error .unsupportedSubprotocols ∧
    negotiate_version (some "hrana3") ≠ .ok Version.hrana3 := by
  have h : negotiate_version (some "hrana3") = .error .unsupportedSubprotocols := rfl
  refine ⟨h, ?_⟩
  rw [h]
  intro hcontra
  exact Except.noConfusion hcontra

/-- C5 (amended): the WebSocket handshake negotiates only sub-protocols
`hrana1` and `hrana2`: an absent header defaults to `hrana1`; a header
offering `hrana2` (case-insensitively, in any comma-separated position)
yields `Hrana2`; one offering `hrana1` but not `hrana2` yields `Hrana1`;
one offering neither — including one offering only `hrana3` — fails the
handshake. -/
theorem negotiate_version_negotiates :
    negotiate_version none = .ok Version.hrana1 ∧
    ∀ hdr : String,
      (offersProtocol hdr "hrana2" = true →
        negotiate_version (some hdr) = .ok Version.hrana2) ∧
      (offersProtocol hdr "hrana2" = false → offersProtocol hdr "hrana1" = true →
        negotiate_version (some hdr) = .ok Version.hrana1) ∧
      (offersProtocol hdr "hrana2" = false → offersProtocol hdr "hrana1" = false →
        negotiate_version (some hdr) = .error .unsupportedSubprotocols) := by
  refine ⟨rfl, fun hdr => ⟨?_, ?_, ?_⟩⟩
  · intro h2
    simp only [offersProtocol] at h2
    simp [negotiate_version, h2]
  · intro h2 h1
    simp only [offersProtocol] at h2 h1
    simp [negotiate_version, h2, h1]
  · intro h2 h1
    simp only [offersProtocol] at h2 h1
    simp [negotiate_version, h2, h1]

/-- Witness for `negotiate_version_negotiates`: a client offering
"hrana3, hrana1" does not offer `hrana2`, and the negotiation settles on
`Hrana1`. -/
theorem negotiate_version_negotiates_witness :
    offersProtocol "hrana3, hrana1" "hrana2" = false ∧
    negotiate_version (some "hrana3, hrana1") = .ok Version.hrana1 :=
  ⟨by decide,
    (negotiate_version_negotiates.2 "hrana3, hrana1").2.1 (by decide) (by decide)⟩

/-- C7: `proto_sql_to_sql` errors exactly when the statement gives both
`sql` and `sql_id`, or neither, or a `sql_id` absent from the stream's SQL
cache, or a `sql_id` at a protocol version below Hrana 2; otherwise it
returns the given SQL text, or the cached text of the `sql_id`. -/
theorem proto_sql_to_sql_spec :
    ∀ (protoSql : Option String) (protoSqlId : Option Int)
      (sqls : List (Int × String)) (verion : Version),
      ((∃ e, proto_sql_to_sql protoSql protoSqlId sqls verion = .error e) ↔
        ((protoSql.isSome = true ∧ protoSqlId.isSome = true) ∨
          (protoSql = none ∧ protoSqlId = none) ∨
          (∃ i, protoSqlId = some i ∧ sqls.lookup i = none) ∨
          (protoSqlId.isSome = true ∧ Version.blt verion .hrana2 = true))) ∧
      (∀ sql, protoSql = some sql → protoSqlId = none →
        proto_sql_to_sql protoSql protoSqlId sqls verion = .ok sql) ∧
      (∀ i s, protoSql = none → protoSqlId = some i →
        Version.blt verion .hrana2 = false → sqls.lookup i = some s →
        proto_sql_to_sql protoSql protoSqlId sqls verion = .ok s) := by
  intro protoSql protoSqlId sqls verion
  refine ⟨?_, ?_, ?_⟩
  · cases protoSql with
    | some sql =>
      cases protoSqlId with
      | some i =>
        constructor
        · intro _
          exact Or.inl ⟨rfl, rfl⟩
        · intro _
          cases hb : Version.blt verion .hrana2 with
          | true =>
            exact ⟨.notSupported "sql_id" .hrana2, by simp [proto_sql_to_sql, hb]⟩
          | false =>
            exact ⟨.sqlIdAndSqlGiven, by simp [proto_sql_to_sql, hb]⟩
      | none =>
        constructor
        · intro ⟨e, he⟩
          rw [show proto_sql_to_sql (some sql) none sqls verion = .ok sql by
            simp [proto_sql_to_sql]] at he
          exact Except.noConfusion he
        · rintro (⟨_, h2⟩ | ⟨h1, _⟩ | ⟨i, hi, _⟩ | ⟨h2, _⟩)
          · simp at h2
          · simp at h1
          · simp at hi
          · simp at h2
    | none =>
      cases protoSqlId with
      | none =>
        constructor
        · intro _
          exact Or.inr (Or.inl ⟨rfl, rfl⟩)
        · intro _
          exact ⟨.sqlIdOrSqlNotGiven, by simp [proto_sql_to_sql]⟩
      | some i =>
        cases hb : Version.blt verion .hrana2 with
        | true =>
          constructor
          · intro _
            exact Or.inr (Or.inr (Or.inr ⟨rfl, rfl⟩))
          · intro _
            exact ⟨.notSupported "sql_id" .hrana2, by simp [proto_sql_to_sql, hb]⟩
        | false =>
          cases hl : sqls.lookup i with
          | none =>
            constructor
            · intro _
              exact Or.inr (Or.inr (Or.inl ⟨i, rfl, hl⟩))
            · intro _
              exact ⟨.sqlNotFound i, by simp [proto_sql_to_sql, hb, hl]⟩
          | some s =>
            constructor
            · intro ⟨e, he⟩
              rw [show proto_sql_to_sql none (some i) sqls verion = .ok s by
                simp [proto_sql_to_sql, hb, hl]] at he
              exact Except.noConfusion he
            · rintro (⟨h1, _⟩ | ⟨_, h2⟩ | ⟨j, hj, hl2⟩ | ⟨_, hb2⟩)
              · simp at h1
              · simp at h2
              · rw [Option.some.injEq] at hj
                subst hj
                rw [hl] at hl2
                exact Option.noConfusion hl2
              · exact Bool.noConfusion hb2
  · intro sql hs hid
    subst hs; subst hid
    simp [proto_sql_to_sql]
  · intro i s hs hid hb hl
    subst hs; subst hid
    simp [proto_sql_to_sql, hb, hl]

/-- Witness for `proto_sql_to_sql_spec`: a statement giving only `sql`
resolves to that text, at any version. -/
theorem proto_sql_to_sql_spec_witness :
    proto_sql_to_sql (some "SELECT 1") none [] Version.hrana1 = .ok "SELECT 1" :=
  (proto_sql_to_sql_spec (some "SELECT 1") none [] Version.hrana1).2.1
    "SELECT 1" rfl rfl

/-- In `handle_pipeline`, running the request loop yields exactly one
result per request. -/
theorem runRequests_length :
    ∀ {R Res S : Type} (handle : S → R → Res × S) (g : S) (rs : List R),
      (runRequests handle g rs).1.length = rs.length := by
  intro R Res S handle g rs
  induction rs generalizing g with
  | nil => rfl
  | cons r rs ih =>
    rcases hr : handle g r with ⟨res, g'⟩
    simp [runRequests, hr, ih]

/-- C4: whenever the stream is acquired successfully, `handle_pipeline`
runs every request of the pipeline body in input order — the per-request
handler records request-level errors in its result, so no request aborts
the loop — and answers with one result per request (in order) and the new
baton minted by releasing the stream. -/
theorem handle_pipeline_processes_all :
    ∀ (R Res S : Type) (acquire : Option String → Except HranaError S)
      (handle : S → R → Res × S) (release : S → Option String)
      (self_url : Option String) (req : PipelineRequestBody R) (g : S),
      acquire req.baton = .ok g →
      handle_pipeline acquire handle release self_url req =
        .ok { baton := release (runRequests handle g req.requests).2,
              base_url := self_url,
              results := (runRequests handle g req.requests).1 } ∧
      (runRequests handle g req.requests).1.length = req.requests.length := by
  intro R Res S acquire handle release self_url req g h
  exact ⟨by simp [handle_pipeline, h], runRequests_length handle g req.requests⟩

/-- Witness for `handle_pipeline_processes_all`: a two-request pipeline on
a trivially-acquiring stream produces both results in order and the minted
baton. -/
theorem handle_pipeline_processes_all_witness :
    handle_pipeline (fun _ => Except.ok ()) (fun (g : Unit) (r : Nat) => (r + 1, g))
      (fun _ => some "tok") none ⟨none, [1, 2]⟩ =
      .ok { baton := some "tok", base_url := none, results := [2, 3] } := by
  have h := handle_pipeline_processes_all Nat Nat Unit (fun _ => Except.ok ())
    (fun g r => (r + 1, g)) (fun _ => some "tok") none ⟨none, [1, 2]⟩ () rfl
  exact h.1

/-- C10: when reading frames fails with `SnapshotRequired` before any frame
was collected and no snapshot file is available for the requested offset
(`load_snapshot` then returns no frames), `handle_frames` answers
`204 No Content`, not an error status. -/
theorem snapshot_required_no_content :
    ∀ (lg : ReplicationLoggerModel) (off : Nat),
      lg.readFrame (max off 1 - 1) = .snapshotRequired →
      load_snapshot lg (max off 1) = some [] →
      handle_frames lg off = .noContent := by
  intro lg off h1 h2
  simp only [handle_frames]
  by_cases hlt : lg.maxAvailableFrameNo < max off 1
  · rw [if_pos hlt]
  · rw [if_neg hlt]
    have hloop : framesLoop lg (max off 1) MAX_FRAMES_IN_SINGLE_RESPONSE
        (max off 1 - 1) [] = some [] := by
      rw [show MAX_FRAMES_IN_SINGLE_RESPONSE = 255 + 1 from rfl]
      simp [framesLoop, h1, h2]
    rw [hloop]
    rfl

/-- A replication-log model whose stream immediately requires a snapshot
while no snapshot file exists (`get_snapshot_file` returns `Ok(None)`). -/
def noSnapshotLogger : ReplicationLoggerModel :=
  ⟨5, fun _ => .snapshotRequired, fun _ => some none, fun _ => none⟩

/-- Witness for `snapshot_required_no_content`: on `noSnapshotLogger`, a
request at offset 3 gets `204 No Content`. -/
theorem snapshot_required_no_content_witness :
    noSnapshotLogger.readFrame (max 3 1 - 1) = .snapshotRequired ∧
    load_snapshot noSnapshotLogger (max 3 1) = some [] ∧
    handle_frames noSnapshotLogger 3 = .noContent :=
  ⟨rfl, rfl, snapshot_required_no_content noSnapshotLogger 3 rfl rfl⟩

/-- The read loop of `handle_frames` collects at most `fuel` frames beyond
those already accumulated — unless it switched to the snapshot, in which
case its result is exactly what `load_snapshot` produced. -/
theorem framesLoop_bound :
    ∀ (lg : ReplicationLoggerModel) (no fuel cur : Nat) (acc out : List Frame),
      framesLoop lg no fuel cur acc = some out →
      out.length ≤ acc.length + fuel ∨ load_snapshot lg no = some out := by
  intro lg no fuel
  induction fuel with
  | zero =>
    intro cur acc out h
    simp only [framesLoop, Option.some.injEq] at h
    subst h
    exact Or.inl (Nat.le_add_right _ _)
  | succ fuel ih =>
    intro cur acc out h
    simp only [framesLoop] at h
    cases hr : lg.readFrame cur with
    | frame f =>
      rw [hr] at h
      simp only at h
      by_cases hle : lg.maxAvailableFrameNo ≤ cur + 1
      · rw [if_pos hle] at h
        rw [Option.some.injEq] at h
        subst h
        left
        simp only [List.length_append, List.length_singleton]
        omega
      · rw [if_neg hle] at h
        rcases ih (cur + 1) (acc ++ [f]) out h with hlen | hsnap
        · left
          simp only [List.length_append, List.length_singleton] at hlen
          omega
        · exact Or.inr hsnap
    | snapshotRequired =>
      rw [hr] at h
      simp only at h
      by_cases hacc : acc = ([] : List Frame)
      · rw [if_pos hacc] at h
        exact Or.inr h
      · rw [if_neg hacc] at h
        rw [Option.some.injEq] at h
        subst h
        left
        omega
    | otherError =>
      rw [hr] at h
      exact Option.noConfusion h
    | eos =>
      rw [hr] at h
      rw [Option.some.injEq] at h
      subst h
      left
      omega

/-- C1 (amended): every `200 OK` response of `handle_frames` produced by
the streaming path contains at most 256 frames; a response produced by the
snapshot fallback is exactly the snapshot's frame list, which is not capped
and may exceed 256 frames. -/
theorem handle_frames_stream_bounded :
    ∀ (lg : ReplicationLoggerModel) (off : Nat) (fs : List Frame),
      handle_frames lg off = .ok fs →
      fs.length ≤ MAX_FRAMES_IN_SINGLE_RESPONSE ∨
      load_snapshot lg (max off 1) = some fs := by
  intro lg off fs h
  simp only [handle_frames] at h
  by_cases hlt : lg.maxAvailableFrameNo < max off 1
  · rw [if_pos hlt] at h
    exact FramesResponse.noConfusion h
  · rw [if_neg hlt] at h
    cases hfl : framesLoop lg (max off 1) MAX_FRAMES_IN_SINGLE_RESPONSE
        (max off 1 - 1) [] with
    | none =>
      rw [hfl] at h
      exact FramesResponse.noConfusion h
    | some frames =>
      rw [hfl] at h
      simp only at h
      by_cases hemp : frames = ([] : List Frame)
      · rw [if_pos hemp] at h
        exact FramesResponse.noConfusion h
      · rw [if_neg hemp] at h
        have hfs : frames = fs := by
          injection h
        subst hfs
        rcases framesLoop_bound lg (max off 1) MAX_FRAMES_IN_SINGLE_RESPONSE
            (max off 1 - 1) [] frames hfl with hlen | hsnap
        · left
          simpa using hlen
        · exact Or.inr hsnap

/-- A primary whose log was fully compacted into a 300-frame snapshot: the
stream immediately requires a snapshot, and the snapshot file decodes to
300 frames. -/
def bigSnapshotLogger : ReplicationLoggerModel :=
  ⟨1, fun _ => .snapshotRequired,
    fun _ => some (some fun _ => List.replicate 300 (some [])),
    fun _ => some ⟨0, 0, []⟩⟩

set_option maxRecDepth 40000 in
/-- C1 (counterexample): on `bigSnapshotLogger`, the request with
`next_offset = 1` is answered `200 OK` through the snapshot fallback path
with 300 frames — more than 256 — so the claim that every `200 OK`
response holds at most 256 frames is false on the code. -/
theorem handle_frames_snapshot_overflow :
    handle_frames bigSnapshotLogger 1 = .ok (List.replicate 300 ⟨0, 0, []⟩) ∧
    MAX_FRAMES_IN_SINGLE_RESPONSE <
      (List.replicate 300 (⟨0, 0, []⟩ : Frame)).length := by
  constructor
  · rfl
  · rw [List.length_replicate]
    decide

/-- A primary with exactly one available frame and no compaction. -/
def oneFrameLogger : ReplicationLoggerModel :=
  ⟨1, fun cur => .frame ⟨0, cur + 1, []⟩, fun _ => some none, fun _ => none⟩

/-- Witness for `handle_frames_stream_bounded`: `oneFrameLogger` answers a
request at offset 1 with `200 OK` and one frame, within the 256 cap. -/
theorem handle_frames_stream_bounded_witness :
    handle_frames oneFrameLogger 1 = .ok [⟨0, 1, []⟩] ∧
    (([⟨0, 1, []⟩] : List Frame).length ≤ MAX_FRAMES_IN_SINGLE_RESPONSE ∨
      load_snapshot oneFrameLogger (max 1 1) = some [⟨0, 1, []⟩]) :=
  ⟨rfl, handle_frames_stream_bounded oneFrameLogger 1 [⟨0, 1, []⟩] rfl⟩

end Sqld
